import Mathlib

/-!
# Verification of the `simple-website` client-side script (`js/main.js`)

This file gives a shallow embedding of the three controllers in
`js/main.js` — contact-form validation, scroll-driven active-link
highlighting, and the mobile-menu toggle — and proves the specified
properties about them.

DOM state is modelled explicitly: an input field is its `name` attribute,
its current `value` and the presence of the `error` CSS class; an error
display element is its `textContent`; the success element is its
`textContent` plus the presence of the `show` class; the mobile menu is the
presence of the `active` class on the panel and on the toggle button.
`setTimeout` is modelled by a list of pending expiry instants, and firing
the callbacks due at an instant is an explicit step.
-/

namespace SimpleWebsite

/-- The set of JavaScript `\s` (whitespace) code points, as used both by
`String.prototype.trim` and by the `[^\s@]` character class of the e-mail
regular expression in `validateField`. -/
def isJsWhitespace (c : Char) : Bool :=
  ([0x9, 0xA, 0xB, 0xC, 0xD, 0x20, 0xA0, 0x1680,
    0x2000, 0x2001, 0x2002, 0x2003, 0x2004, 0x2005, 0x2006, 0x2007,
    0x2008, 0x2009, 0x200A, 0x2028, 0x2029, 0x202F, 0x205F, 0x3000,
    0xFEFF] : List Nat).contains c.toNat

/-- JavaScript `String.prototype.trim`: strip leading and trailing
whitespace. -/
def jsTrim (s : String) : String :=
  ⟨((s.data.dropWhile isJsWhitespace).reverse.dropWhile isJsWhitespace).reverse⟩

/-- A character admitted by the `[^\s@]` class of the regex
`/^[^\s@]+@[^\s@]+\.[^\s@]+$/` in `validateField`: anything that is neither
whitespace nor `@`. -/
def isEmailChar (c : Char) : Bool :=
  !isJsWhitespace c && c != '@'

/-- The domain part of the regex, `[^\s@]+\.[^\s@]+`, as a full match on
`d`: `d` splits as `M ++ '.' :: R` with `M`, `R` non-empty strings of
`[^\s@]` characters.  Because `'.'` itself lies in `[^\s@]`, this holds
exactly when every character of `d` is in the class and some `'.'` occurs
at a position that is neither the first nor the last. -/
def emailDomainMatch (d : List Char) : Bool :=
  d.all isEmailChar &&
    (List.range d.length).any
      (fun i => decide (0 < i) && decide (i + 1 < d.length) && (d.getD i ' ' == '.'))

/-- Full-string match of the anchored regex `/^[^\s@]+@[^\s@]+\.[^\s@]+$/`
from `validateField` (line 220 of `js/main.js`).  Since `@` is excluded
from the leading class, the `@` of the pattern can only match the first
`@` of the subject, so the subject matches iff it splits at its first `@`
into a non-empty `[^\s@]+` local part and a domain matching
`[^\s@]+\.[^\s@]+`. -/
def matchesEmailRegex (s : String) : Bool :=
  match s.data.dropWhile (fun c => c != '@') with
  | '@' :: domain =>
      let localPart := s.data.takeWhile (fun c => c != '@')
      !localPart.isEmpty && localPart.all isEmailChar && emailDomainMatch domain
  | _ => false

/-- Function `getFieldLabel` (lines 279–286): the `labels` lookup table with
fall-through to the field name itself. -/
def getFieldLabel (fieldName : String) : String :=
  if fieldName = "name" then "Nama"
  else if fieldName = "email" then "Email"
  else if fieldName = "message" then "Pesan"
  else fieldName

/-- An error display element (`#nameError`, `#emailError`,
`#messageError`): just its `textContent`. -/
structure ErrorElem where
  text : String
deriving DecidableEq

/-- A form input field: its `name` attribute, its `value`, and whether the
`error` CSS class is present on it. -/
structure Field where
  name : String
  value : String
  hasErrorClass : Bool
deriving DecidableEq

/-- Function `showError` (lines 236–241): add the `error` class to the field and,
when the error element exists, set its text to the message. -/
def showError (field : Field) (errorElement : Option ErrorElem) (message : String) :
    Field × Option ErrorElem :=
  ({ field with hasErrorClass := true },
   errorElement.map (fun e => { e with text := message }))

/-- Function `validateField` (lines 201–228).  The error element passed in models
`document.getElementById(fieldName + "Error")`, which may be absent
(`none`).  Returns the boolean result together with the updated field and
error element. -/
def validateField (field : Field) (errorElement : Option ErrorElem) :
    Bool × Field × Option ErrorElem :=
  let value := jsTrim field.value
  let fieldName := field.name
  let field' := { field with hasErrorClass := false }
  let errorElement' := errorElement.map (fun e => { e with text := "" })
  if value = "" then
    (false, showError field' errorElement' (getFieldLabel fieldName ++ " harus diisi"))
  else if fieldName == "email" && !matchesEmailRegex value then
    (false, showError field' errorElement' "Format email tidak valid")
  else
    (true, field', errorElement')

/-- The boolean verdict of `validateField` as a function of the field's
`name` and `value` alone (the verdict does not depend on the previous
error state). -/
def fieldValid (name value : String) : Bool :=
  (validateField ⟨name, value, false⟩ none).1

/-- The error text `validateField` leaves in an existing error element, as
a function of the field's `name` and `value` (derived characterisation
used to state lemmas; the source of truth is `validateField`). -/
def errorMessageFor (name value : String) : String :=
  if jsTrim value = "" then getFieldLabel name ++ " harus diisi"
  else if name == "email" && !matchesEmailRegex (jsTrim value) then
    "Format email tidak valid"
  else ""

/-- A `section[id]` element: its `id` attribute, `offsetTop` and
`offsetHeight`. -/
structure Section where
  id : String
  offsetTop : Int
  offsetHeight : Int
deriving DecidableEq

/-- A `.nav-link` element: its `href` attribute and whether the `active`
CSS class is present. -/
structure NavLink where
  href : String
  active : Bool
deriving DecidableEq

/-- The per-section test of `updateActiveMenuItem` (line 85):
`scrollPosition >= sectionTop && scrollPosition < sectionTop + sectionHeight`. -/
def sectionContains (s : Section) (scrollPosition : Int) : Bool :=
  scrollPosition ≥ s.offsetTop && scrollPosition < s.offsetTop + s.offsetHeight

/-- The `currentSection` accumulation of `updateActiveMenuItem`
(lines 78–88): start from `''`, and for each section in document order
overwrite with its id when its extent contains `pageYOffset + 100`. -/
def currentSectionId (sections : List Section) (pageYOffset : Int) : String :=
  sections.foldl
    (fun currentSection s =>
      if sectionContains s (pageYOffset + 100) then s.id else currentSection)
    ""

/-- Function `updateActiveMenuItem` (lines 74–97): every link first loses `active`,
then regains it exactly when its `href` equals `"#" ++ currentSection`. -/
def updateActiveMenuItem (sections : List Section) (navLinks : List NavLink)
    (pageYOffset : Int) : List NavLink :=
  let c := currentSectionId sections pageYOffset
  navLinks.map (fun link => { link with active := link.href == "#" ++ c })

/-- The last section in document order whose extent contains the scroll
reference point, rendered from the specification's words ("the last one
encountered in document order wins"); compared against `currentSectionId`
(the translation of the code) in the refinement theorem. -/
def lastContainingId (sections : List Section) (pageYOffset : Int) : String :=
  match (sections.filter (fun s => sectionContains s (pageYOffset + 100))).getLast? with
  | some s => s.id
  | none => ""

/-- State of the mobile menu: presence of the `active` class on the
`.nav-menu` panel and on the `.nav-toggle` button. -/
structure MenuState where
  menuActive : Bool
  toggleActive : Bool
deriving DecidableEq

/-- The user events acting on the mobile menu.  `toggleClick` is a click
on the toggle button (its own listener runs, and the bubbled document
click is inside the toggle, so the outside-click listener is a no-op);
`outsideClick` is a document click neither inside the panel nor inside the
toggle; `navClick` is following a navigation link whose fragment target
exists (the link sits inside the panel, so the bubbled document click is
again a no-op). -/
inductive MenuEvent where
  | toggleClick
  | outsideClick
  | navClick
deriving DecidableEq

/-- One transition of the mobile-menu DOM state.
`toggleClick`: `initMobileMenu` lines 114–117 toggle the class on both
nodes.  `outsideClick`: lines 120–127 remove the class from both nodes
when the panel currently has it.  `navClick`: `initNavigation` lines 41–46
remove the class from both nodes when the panel currently has it. -/
def menuStep (st : MenuState) (e : MenuEvent) : MenuState :=
  match e with
  | .toggleClick => { menuActive := !st.menuActive, toggleActive := !st.toggleActive }
  | .outsideClick => if st.menuActive then { menuActive := false, toggleActive := false } else st
  | .navClick => if st.menuActive then { menuActive := false, toggleActive := false } else st

/-- Initially neither node carries the `active` class (the menu starts
closed). -/
def initialMenuState : MenuState :=
  { menuActive := false, toggleActive := false }

/-- Run the mobile-menu machine from its initial state over a list of
events. -/
def runMenu (events : List MenuEvent) : MenuState :=
  events.foldl menuStep initialMenuState

/-- The specification's abstract two-state machine over `isOpen`:
`toggleClick` flips, `outsideClick` and `navClick` lead to closed. -/
def specMenuStep (isOpen : Bool) (e : MenuEvent) : Bool :=
  match e with
  | .toggleClick => !isOpen
  | .outsideClick => false
  | .navClick => false

/-- The DOM environment seen by the `.nav-link` click handler installed by
`initNavigation` (lines 26–50): the link's `href`, whether
`document.getElementById(targetId)` finds the target section, and the
`.nav-menu` / `.nav-toggle` elements — `none` when absent from the
document, `some a` when present with `active`-class state `a`. -/
structure NavClickEnv where
  href : String
  targetExists : Bool
  navMenu : Option Bool
  navToggle : Option Bool
deriving DecidableEq

/-- Observable outcome of a `.nav-link` click when no exception is
thrown. -/
structure NavClickOutcome where
  defaultPrevented : Bool
  scrolled : Bool
  navMenu : Option Bool
  navToggle : Option Bool
deriving DecidableEq

/-- Test `href.startsWith('#')` (line 31): the first character of the `href`
is the fragment marker. -/
def hrefIsFragment (href : String) : Bool :=
  match href.data with
  | c :: _ => c == '#'
  | [] => false

/-- The `.nav-link` click handler (lines 27–49).  `Except.error` models a
thrown `TypeError`: line 43 reads `navMenu.classList` without a null
guard, and line 45 reads `navToggle.classList` (reached only when the
panel currently has the `active` class). -/
def navLinkClick (env : NavClickEnv) : Except String NavClickOutcome :=
  if hrefIsFragment env.href then
    if env.targetExists then
      match env.navMenu with
      | none => Except.error "TypeError: navMenu is null"
      | some menuActive =>
          if menuActive then
            match env.navToggle with
            | none => Except.error "TypeError: navToggle is null"
            | some _ => Except.ok ⟨true, true, some false, some false⟩
          else
            Except.ok ⟨true, true, some false, env.navToggle⟩
    else
      Except.ok ⟨true, false, env.navMenu, env.navToggle⟩
  else
    Except.ok ⟨false, false, env.navMenu, env.navToggle⟩

/-- The `#formSuccess` element: its `textContent` and whether the `show`
class is present. -/
structure SuccessElem where
  text : String
  shown : Bool
deriving DecidableEq

/-- The contact form and its associated display elements.  The three
error elements model `document.getElementById(fieldName + "Error")` and
the success element models `document.getElementById('formSuccess')`
(`none` = absent).  `pendingHideTimers` records the expiry instants of the
`setTimeout` callbacks scheduled by `showSuccessMessage` that have not yet
fired. -/
structure ContactForm where
  nameField : Field
  emailField : Field
  messageField : Field
  nameError : Option ErrorElem
  emailError : Option ErrorElem
  messageError : Option ErrorElem
  success : Option SuccessElem
  pendingHideTimers : List Nat
deriving DecidableEq

/-- The markup contract of `index.html`: the three inputs carry the `name`
attributes `name`, `email`, `message`. -/
def ContactForm.wf (st : ContactForm) : Prop :=
  st.nameField.name = "name" ∧ st.emailField.name = "email" ∧
    st.messageField.name = "message"

instance (st : ContactForm) : Decidable st.wf := by
  unfold ContactForm.wf; infer_instance

/-- Function `clearErrors` (lines 246–256): blank every `.form-error` element and
remove the `error` class from every `.form-input`. -/
def clearErrors (st : ContactForm) : ContactForm :=
  { st with
    nameError := st.nameError.map (fun e => { e with text := "" })
    emailError := st.emailError.map (fun e => { e with text := "" })
    messageError := st.messageError.map (fun e => { e with text := "" })
    nameField := { st.nameField with hasErrorClass := false }
    emailField := { st.emailField with hasErrorClass := false }
    messageField := { st.messageField with hasErrorClass := false } }

/-- Function `showSuccessMessage` (lines 261–272), called at instant `now`: when
the success element exists, set its text, add the `show` class, and
schedule a hide callback for `now + 5000`; the existing pending timers are
left untouched (no `clearTimeout` anywhere in the source). -/
def showSuccessMessage (now : Nat) (st : ContactForm) : ContactForm :=
  match st.success with
  | none => st
  | some _ =>
      { st with
        success := some ⟨"Pesan berhasil dikirim! Terima kasih.", true⟩
        pendingHideTimers := st.pendingHideTimers ++ [now + 5000] }

/-- Call `form.reset()` (line 192): the inputs return to their default values,
which are empty in `index.html`. -/
def formReset (st : ContactForm) : ContactForm :=
  { st with
    nameField := { st.nameField with value := "" }
    emailField := { st.emailField with value := "" }
    messageField := { st.messageField with value := "" } }

/-- Function `handleFormSubmit` (lines 163–194), at instant `now`.  The returned
boolean is `defaultPrevented` (line 164 calls `e.preventDefault()`
unconditionally).  All three fields are validated in the order name,
email, message with no short-circuiting (three separate `if` statements),
and only when all three verdicts are true are `showSuccessMessage` and
`form.reset()` run, in that order. -/
def handleFormSubmit (now : Nat) (st : ContactForm) : Bool × ContactForm :=
  let st0 := clearErrors st
  let r1 := validateField st0.nameField st0.nameError
  let st1 := { st0 with nameField := r1.2.1, nameError := r1.2.2 }
  let r2 := validateField st1.emailField st1.emailError
  let st2 := { st1 with emailField := r2.2.1, emailError := r2.2.2 }
  let r3 := validateField st2.messageField st2.messageError
  let st3 := { st2 with messageField := r3.2.1, messageError := r3.2.2 }
  let isValid := r1.1 && r2.1 && r3.1
  if isValid then (true, formReset (showSuccessMessage now st3))
  else (true, st3)

/-- Fire every pending hide callback due at or before instant `t`: each
such callback removes the `show` class from the success element
(line 269); firing at least one of them leaves the class absent. -/
def fireTimers (t : Nat) (st : ContactForm) : ContactForm :=
  if st.pendingHideTimers.any (fun d => d ≤ t) then
    { st with
      success := st.success.map (fun s => { s with shown := false })
      pendingHideTimers := st.pendingHideTimers.filter (fun d => decide (t < d)) }
  else st

example : matchesEmailRegex "a@b.com" = true := by decide
example : matchesEmailRegex "user+tag@example.co.uk" = true := by decide
example : matchesEmailRegex "notanemail" = false := by decide
example : matchesEmailRegex "@example.com" = false := by decide
example : matchesEmailRegex "user@" = false := by decide
example : matchesEmailRegex "user @example.com" = false := by decide
example : matchesEmailRegex "user@example" = false := by decide
example : matchesEmailRegex "a@b@c.com" = false := by decide
example : matchesEmailRegex "a@.com" = false := by decide
example : matchesEmailRegex "a@b." = false := by decide
example : jsTrim "  hi " = "hi" := by decide
example : jsTrim "   " = "" := by decide
example : validateField ⟨"email", "bad", false⟩ (some ⟨""⟩)
    = (false, ⟨"email", "bad", true⟩, some ⟨"Format email tidak valid"⟩) := by decide
example : validateField ⟨"email", " a@b.com ", true⟩ (some ⟨"x"⟩)
    = (true, ⟨"email", " a@b.com ", false⟩, some ⟨""⟩) := by decide

/-- Closed form of `validateField`: the verdict depends only on the
field's name and value, the field keeps its name and value and ends with
the `error` class iff the verdict is negative, and an existing error
element ends with exactly the message `errorMessageFor` describes. -/
lemma validateField_result (f : Field) (e : Option ErrorElem) :
    validateField f e
      = (fieldValid f.name f.value,
         { f with hasErrorClass := !fieldValid f.name f.value },
         e.map (fun el => { el with text := errorMessageFor f.name f.value })) := by
  obtain ⟨n, v, c⟩ := f
  cases e with
  | none =>
      by_cases h1 : jsTrim v = ""
      · simp [validateField, fieldValid, errorMessageFor, showError, h1]
      · by_cases h2 : (n == "email" && !matchesEmailRegex (jsTrim v)) = true
        · simp [validateField, fieldValid, errorMessageFor, showError, h1, h2]
        · simp [validateField, fieldValid, errorMessageFor, showError, h1, h2]
  | some el =>
      by_cases h1 : jsTrim v = ""
      · simp [validateField, fieldValid, errorMessageFor, showError, h1]
      · by_cases h2 : (n == "email" && !matchesEmailRegex (jsTrim v)) = true
        · simp [validateField, fieldValid, errorMessageFor, showError, h1, h2]
        · simp [validateField, fieldValid, errorMessageFor, showError, h1, h2]

lemma getFieldLabel_name : getFieldLabel "name" = "Nama" := rfl

lemma getFieldLabel_email : getFieldLabel "email" = "Email" := rfl

lemma getFieldLabel_message : getFieldLabel "message" = "Pesan" := rfl

/-- C1: `validateField` marks a field whose trimmed value is empty as
invalid with the message `<label> harus diisi`, marks the email field as
invalid with `Format email tidak valid` when the trimmed value is
non-empty but fails the e-mail regex, and in every other case leaves the
field without the `error` class, blanks the error text, and returns
`true`. -/
theorem validateField_contract (name label : String)
    (hmap : (name, label) ∈ [("name", "Nama"), ("email", "Email"), ("message", "Pesan")])
    (value t : String) (hc : Bool) :
    (jsTrim value = "" →
      validateField ⟨name, value, hc⟩ (some ⟨t⟩)
        = (false, ⟨name, value, true⟩, some ⟨label ++ " harus diisi"⟩)) ∧
    (jsTrim value ≠ "" → name = "email" → matchesEmailRegex (jsTrim value) = false →
      validateField ⟨name, value, hc⟩ (some ⟨t⟩)
        = (false, ⟨name, value, true⟩, some ⟨"Format email tidak valid"⟩)) ∧
    (jsTrim value ≠ "" → (name = "email" → matchesEmailRegex (jsTrim value) = true) →
      validateField ⟨name, value, hc⟩ (some ⟨t⟩)
        = (true, ⟨name, value, false⟩, some ⟨""⟩)) := by
  simp only [List.mem_cons, List.not_mem_nil, or_false, Prod.mk.injEq] at hmap
  rcases hmap with ⟨h1, h2⟩ | ⟨h1, h2⟩ | ⟨h1, h2⟩ <;> subst h1 <;> subst h2 <;>
    refine ⟨fun he => ?_, fun hne hem hreg => ?_, fun hne hok => ?_⟩ <;>
    first
      | (exact absurd hem (by decide))
      | simp_all [validateField, showError, getFieldLabel_name, getFieldLabel_email,
          getFieldLabel_message]

/-- Witness for C1 at a concrete input: the empty name field is marked
with `Nama harus diisi`. -/
theorem validateField_contract_witness :
    validateField ⟨"name", "", true⟩ (some ⟨"old"⟩)
      = (false, ⟨"name", "", true⟩, some ⟨"Nama harus diisi"⟩) :=
  (validateField_contract "name" "Nama" (by decide) "" "old" true).1 rfl

/-- C9: `validateField` is idempotent — rerunning it on the unchanged
field and error element returns the same verdict and leaves the same
error state. -/
theorem validateField_idempotent (f : Field) (e : Option ErrorElem) :
    validateField (validateField f e).2.1 (validateField f e).2.2 = validateField f e := by
  obtain ⟨n, v, c⟩ := f
  rw [validateField_result, validateField_result]
  cases e <;> simp [Option.map_map]

/-- C10: `validateField` never mutates the field's value (nor its name);
it writes only the error class and the error text. -/
theorem validateField_preserves_value (f : Field) (e : Option ErrorElem) :
    ((validateField f e).2.1).value = f.value ∧
      ((validateField f e).2.1).name = f.name := by
  rw [validateField_result]
  exact ⟨rfl, rfl⟩

/-- The last-write-wins fold of `updateActiveMenuItem` computes the id of
the last section (in document order) whose extent contains `p`, falling
back to the accumulator when none does. -/
lemma foldl_currentSection (sections : List Section) (p : Int) (acc : String) :
    sections.foldl (fun cur s => if sectionContains s p then s.id else cur) acc
      = (match (sections.filter (fun s => sectionContains s p)).getLast? with
          | some s => s.id
          | none => acc) := by
  induction sections generalizing acc with
  | nil => rfl
  | cons s ss ih =>
      simp only [List.foldl_cons, List.filter_cons]
      by_cases h : sectionContains s p = true
      · simp only [h, if_true, ih]
        rcases hl : ss.filter (fun s => sectionContains s p) with _ | ⟨b, l⟩
        · rfl
        · simp only [List.getLast?_cons_cons]
          rcases hgl : (b :: l).getLast? with _ | x
          · exact absurd (List.getLast?_eq_none_iff.mp hgl) (by simp)
          · rfl
      · simp only [h, Bool.false_eq_true, if_false, ih]

/-- Computation `currentSectionId` agrees with the specification's description via
`lastContainingId`. -/
lemma currentSectionId_eq_lastContainingId (sections : List Section) (y : Int) :
    currentSectionId sections y = lastContainingId sections y :=
  foldl_currentSection sections (y + 100) ""

/-- C2 counterexample: with no sections at all (so no section's interval
contains the reference point), a navigation link whose `href` is the bare
fragment `"#"` still receives the `active` class, because `currentSection`
defaults to the empty string and `"#" ++ "" = "#"`.  This contradicts the
claim that in this case no navigation link is active. -/
theorem updateActiveMenuItem_hash_counterexample :
    updateActiveMenuItem [] [⟨"#", false⟩] 0 = [⟨"#", true⟩] := by decide

/-- C2 (amended): after the scroll handler runs, a link is active exactly
when its `href` equals `"#"` followed by the id of the last section in
document order whose `[top, top + height)` interval contains
`y + 100` — where that id defaults to the empty string when no section
contains the point, so links whose `href` is exactly `"#"` are then
active and all links with any other `href` are inactive. -/
theorem updateActiveMenuItem_spec (sections : List Section) (navLinks : List NavLink)
    (y : Int) :
    updateActiveMenuItem sections navLinks y
      = navLinks.map
          (fun link => { link with active := link.href == "#" ++ lastContainingId sections y }) := by
  unfold updateActiveMenuItem
  rw [currentSectionId_eq_lastContainingId]

/-- After re-marking, the number of active links equals the number of
occurrences of the target fragment among the links' `href`s. -/
lemma length_filter_active_eq_count (links : List NavLink) (t : String) :
    ((links.map (fun link => { link with active := link.href == t })).filter
        (fun link => link.active)).length
      = List.count t (links.map (fun link => link.href)) := by
  induction links with
  | nil => rfl
  | cons l ls ih =>
      simp only [List.map_cons, List.filter_cons, List.count_cons]
      by_cases hb : (l.href == t) = true
      · simp [hb, ih]
      · simp [hb, ih]

/-- C3 counterexample: two distinct link elements may share the same
`href`; when the matching section contains the reference point, the scroll
handler gives the `active` class to both of them, so "at most one link is
active" fails for such link sets. -/
theorem updateActiveMenuItem_duplicate_counterexample :
    ((updateActiveMenuItem [⟨"a", 0, 200⟩] [⟨"#a", false⟩, ⟨"#a", false⟩] 0).filter
        (fun link => link.active)).length = 2 := by decide

/-- C3 (amended): when the links' `href` attributes are pairwise distinct
— as they are in `index.html` — at most one navigation link carries the
`active` class after the scroll handler runs. -/
theorem updateActiveMenuItem_mutual_exclusion (sections : List Section)
    (navLinks : List NavLink) (y : Int)
    (h : (navLinks.map (fun link => link.href)).Nodup) :
    ((updateActiveMenuItem sections navLinks y).filter (fun link => link.active)).length ≤ 1 := by
  unfold updateActiveMenuItem
  rw [length_filter_active_eq_count]
  exact List.nodup_iff_count_le_one.mp h _

/-- Witness for C3 at a concrete input: distinct `href`s, one section
containing the reference point. -/
theorem updateActiveMenuItem_mutual_exclusion_witness :
    ((updateActiveMenuItem [⟨"a", 0, 200⟩] [⟨"#a", false⟩, ⟨"#b", false⟩] 0).filter
        (fun link => link.active)).length ≤ 1 :=
  updateActiveMenuItem_mutual_exclusion [⟨"a", 0, 200⟩] [⟨"#a", false⟩, ⟨"#b", false⟩] 0
    (by decide)

/-- When the two menu nodes start out agreeing, every event keeps them
agreeing and their common state follows the abstract machine. -/
lemma foldl_menuStep_diag (events : List MenuEvent) (b : Bool) :
    events.foldl menuStep ⟨b, b⟩
      = ⟨events.foldl specMenuStep b, events.foldl specMenuStep b⟩ := by
  induction events generalizing b with
  | nil => rfl
  | cons e es ih =>
      cases e with
      | toggleClick => simpa [menuStep, specMenuStep] using ih (!b)
      | outsideClick => cases b <;> simpa [menuStep, specMenuStep] using ih false
      | navClick => cases b <;> simpa [menuStep, specMenuStep] using ih false

/-- C8: from the initial closed state, after any sequence of toggle
clicks, outside clicks and link navigations, the panel's and the toggle
button's `active` classes agree, and their common value is the run of the
specification's two-state machine (`toggleClick` flips, `outsideClick`
and `navClick` close). -/
theorem mobileMenu_state_machine (events : List MenuEvent) :
    (runMenu events).menuActive = (runMenu events).toggleActive ∧
      (runMenu events).menuActive = events.foldl specMenuStep false := by
  unfold runMenu initialMenuState
  rw [show ({ menuActive := false, toggleActive := false } : MenuState)
        = ⟨false, false⟩ from rfl,
     foldl_menuStep_diag events false]
  exact ⟨rfl, rfl⟩

/-- C6 counterexample: a click on a link whose `href` is `"#about"` and
whose target section exists throws a `TypeError` when the `.nav-menu`
panel is absent, because line 43 dereferences `navMenu` without a null
guard.  This contradicts the claim that the handler completes without
throwing when the panel is absent. -/
theorem navLinkClick_missing_menu_counterexample :
    (navLinkClick ⟨"#about", true, none, none⟩).isOk = false := by decide

/-- C6 (amended): the click handler completes without throwing provided
the `.nav-menu` panel is present and, whenever the panel currently has
the `active` class, the `.nav-toggle` button is present as well; in
particular, with the panel present but closed, absence of the toggle
button is a silent no-op. -/
theorem navLinkClick_no_throw (env : NavClickEnv) (m : Bool)
    (hm : env.navMenu = some m) (hmt : m = true → env.navToggle.isSome = true) :
    (navLinkClick env).isOk = true := by
  obtain ⟨href, te, nm, nt⟩ := env
  simp only at hm
  subst hm
  cases m with
  | false =>
      by_cases h1 : hrefIsFragment href = true <;> cases te <;>
        simp [navLinkClick, h1, Except.isOk, Except.toBool]
  | true =>
      have hnt := hmt rfl
      cases nt with
      | none => simp at hnt
      | some b =>
          by_cases h1 : hrefIsFragment href = true <;> cases te <;>
            simp [navLinkClick, h1, Except.isOk, Except.toBool]

/-- Witness for C6 at a concrete input: panel present and closed, toggle
button absent, fragment link with an existing target — no exception. -/
theorem navLinkClick_no_throw_witness :
    (navLinkClick ⟨"#about", true, some false, none⟩).isOk = true :=
  navLinkClick_no_throw ⟨"#about", true, some false, none⟩ false rfl
    (fun h => absurd h (by decide))

/-- A field that validates successfully leaves no error message. -/
lemma errorMessageFor_eq_empty (n v : String) (h : fieldValid n v = true) :
    errorMessageFor n v = "" := by
  unfold fieldValid validateField at h
  unfold errorMessageFor
  by_cases h1 : jsTrim v = ""
  · simp [h1] at h
  · by_cases h2 : (n == "email" && !matchesEmailRegex (jsTrim v)) = true
    · simp [h1, h2] at h
    · simp [h1, h2]

/-- Closed form of `handleFormSubmit` when at least one field is invalid:
default is prevented, every field ends marked exactly according to its own
verdict with the corresponding message, values, success element and
pending timers are untouched. -/
lemma handleFormSubmit_invalid_eq (now : Nat)
    (f1 f2 f3 : Field) (e1 e2 e3 : Option ErrorElem) (su : Option SuccessElem)
    (tm : List Nat)
    (h : (fieldValid f1.name f1.value && fieldValid f2.name f2.value &&
          fieldValid f3.name f3.value) = false) :
    handleFormSubmit now ⟨f1, f2, f3, e1, e2, e3, su, tm⟩
      = (true,
         ⟨{ f1 with hasErrorClass := !fieldValid f1.name f1.value },
          { f2 with hasErrorClass := !fieldValid f2.name f2.value },
          { f3 with hasErrorClass := !fieldValid f3.name f3.value },
          e1.map (fun el => { el with text := errorMessageFor f1.name f1.value }),
          e2.map (fun el => { el with text := errorMessageFor f2.name f2.value }),
          e3.map (fun el => { el with text := errorMessageFor f3.name f3.value }),
          su, tm⟩) := by
  obtain ⟨n1, v1, c1⟩ := f1
  obtain ⟨n2, v2, c2⟩ := f2
  obtain ⟨n3, v3, c3⟩ := f3
  simp only [handleFormSubmit, clearErrors, validateField_result] at *
  simp only [h, Bool.false_eq_true, if_false, Option.map_map]
  cases e1 <;> cases e2 <;> cases e3 <;> rfl

/-- Closed form of `handleFormSubmit` when all three fields are valid and
the success element exists: default is prevented, no field is marked, all
error texts are blanked, the values are cleared, the success element shows
its message, and a hide timer for `now + 5000` is appended to the pending
ones. -/
lemma handleFormSubmit_valid_eq (now : Nat)
    (f1 f2 f3 : Field) (e1 e2 e3 : Option ErrorElem) (s : SuccessElem)
    (tm : List Nat)
    (h1 : fieldValid f1.name f1.value = true)
    (h2 : fieldValid f2.name f2.value = true)
    (h3 : fieldValid f3.name f3.value = true) :
    handleFormSubmit now ⟨f1, f2, f3, e1, e2, e3, some s, tm⟩
      = (true,
         ⟨{ f1 with value := "", hasErrorClass := false },
          { f2 with value := "", hasErrorClass := false },
          { f3 with value := "", hasErrorClass := false },
          e1.map (fun el => { el with text := "" }),
          e2.map (fun el => { el with text := "" }),
          e3.map (fun el => { el with text := "" }),
          some ⟨"Pesan berhasil dikirim! Terima kasih.", true⟩,
          tm ++ [now + 5000]⟩) := by
  obtain ⟨n1, v1, c1⟩ := f1
  obtain ⟨n2, v2, c2⟩ := f2
  obtain ⟨n3, v3, c3⟩ := f3
  simp only at h1 h2 h3
  simp only [handleFormSubmit, clearErrors, validateField_result,
    errorMessageFor_eq_empty _ _ h1, errorMessageFor_eq_empty _ _ h2,
    errorMessageFor_eq_empty _ _ h3, h1, h2, h3, Bool.and_self, if_true,
    Option.map_map, showSuccessMessage, formReset, Bool.not_true]
  cases e1 <;> cases e2 <;> cases e3 <;> rfl

/-- C4: when at least one of the three fields is invalid, submission is
prevented, all three fields are validated (no short-circuit) so that
exactly the invalid fields end up carrying the `error` class with their
messages, the field values are kept, and the success element and pending
timers are untouched. -/
theorem handleFormSubmit_invalid_contract (now : Nat) (st : ContactForm)
    (hwf : st.wf)
    (h : (fieldValid "name" st.nameField.value && fieldValid "email" st.emailField.value &&
          fieldValid "message" st.messageField.value) = false) :
    (handleFormSubmit now st).1 = true ∧
    (handleFormSubmit now st).2.nameField
      = { st.nameField with hasErrorClass := !fieldValid "name" st.nameField.value } ∧
    (handleFormSubmit now st).2.emailField
      = { st.emailField with hasErrorClass := !fieldValid "email" st.emailField.value } ∧
    (handleFormSubmit now st).2.messageField
      = { st.messageField with hasErrorClass := !fieldValid "message" st.messageField.value } ∧
    (handleFormSubmit now st).2.nameError
      = st.nameError.map (fun el => { el with text := errorMessageFor "name" st.nameField.value }) ∧
    (handleFormSubmit now st).2.emailError
      = st.emailError.map (fun el => { el with text := errorMessageFor "email" st.emailField.value }) ∧
    (handleFormSubmit now st).2.messageError
      = st.messageError.map (fun el => { el with text := errorMessageFor "message" st.messageField.value }) ∧
    (handleFormSubmit now st).2.success = st.success ∧
    (handleFormSubmit now st).2.pendingHideTimers = st.pendingHideTimers := by
  obtain ⟨f1, f2, f3, e1, e2, e3, su, tm⟩ := st
  have hn : f1.name = "name" := hwf.1
  have he : f2.name = "email" := hwf.2.1
  have hm2 : f3.name = "message" := hwf.2.2
  have h' : (fieldValid f1.name f1.value && fieldValid f2.name f2.value &&
      fieldValid f3.name f3.value) = false := by
    rw [hn, he, hm2]; exact h
  rw [handleFormSubmit_invalid_eq now f1 f2 f3 e1 e2 e3 su tm h']
  simp [hn, he, hm2]

/-- Witness for C4 at the specified scenario `name=""`,
`email="a@b.com"`, `message="hi"`: submission is blocked and only the
name field ends up in error, its message reading `Nama harus diisi`. -/
theorem handleFormSubmit_invalid_contract_witness :
    ((handleFormSubmit 0
        ⟨⟨"name", "", false⟩, ⟨"email", "a@b.com", false⟩, ⟨"message", "hi", false⟩,
         some ⟨""⟩, some ⟨""⟩, some ⟨""⟩, some ⟨"", false⟩, []⟩).1 = true ∧
      (handleFormSubmit 0
        ⟨⟨"name", "", false⟩, ⟨"email", "a@b.com", false⟩, ⟨"message", "hi", false⟩,
         some ⟨""⟩, some ⟨""⟩, some ⟨""⟩, some ⟨"", false⟩, []⟩).2.nameField
        = ⟨"name", "", true⟩ ∧
      (handleFormSubmit 0
        ⟨⟨"name", "", false⟩, ⟨"email", "a@b.com", false⟩, ⟨"message", "hi", false⟩,
         some ⟨""⟩, some ⟨""⟩, some ⟨""⟩, some ⟨"", false⟩, []⟩).2.emailField
        = ⟨"email", "a@b.com", false⟩ ∧
      (handleFormSubmit 0
        ⟨⟨"name", "", false⟩, ⟨"email", "a@b.com", false⟩, ⟨"message", "hi", false⟩,
         some ⟨""⟩, some ⟨""⟩, some ⟨""⟩, some ⟨"", false⟩, []⟩).2.messageField
        = ⟨"message", "hi", false⟩) ∧
      (handleFormSubmit 0
        ⟨⟨"name", "", false⟩, ⟨"email", "a@b.com", false⟩, ⟨"message", "hi", false⟩,
         some ⟨""⟩, some ⟨""⟩, some ⟨""⟩, some ⟨"", false⟩, []⟩).2.nameError
        = some ⟨"Nama harus diisi"⟩ ∧
      (handleFormSubmit 0
        ⟨⟨"name", "", false⟩, ⟨"email", "a@b.com", false⟩, ⟨"message", "hi", false⟩,
         some ⟨""⟩, some ⟨""⟩, some ⟨""⟩, some ⟨"", false⟩, []⟩).2.emailError
        = some ⟨""⟩ ∧
      (handleFormSubmit 0
        ⟨⟨"name", "", false⟩, ⟨"email", "a@b.com", false⟩, ⟨"message", "hi", false⟩,
         some ⟨""⟩, some ⟨""⟩, some ⟨""⟩, some ⟨"", false⟩, []⟩).2.messageError
        = some ⟨""⟩ := by
  have h := handleFormSubmit_invalid_contract 0
    ⟨⟨"name", "", false⟩, ⟨"email", "a@b.com", false⟩, ⟨"message", "hi", false⟩,
     some ⟨""⟩, some ⟨""⟩, some ⟨""⟩, some ⟨"", false⟩, []⟩
    (by exact ⟨rfl, rfl, rfl⟩) (by decide)
  refine ⟨⟨h.1, ?_, ?_, ?_⟩, ?_, ?_, ?_⟩
  · rw [h.2.1]; decide
  · rw [h.2.2.1]; decide
  · rw [h.2.2.2.1]; decide
  · rw [h.2.2.2.2.1]; decide
  · rw [h.2.2.2.2.2.1]; decide
  · rw [h.2.2.2.2.2.2.1]; decide

/-- C5: when all three fields are valid and the success element exists,
submission sets the success text, adds the `show` class, clears the three
field values, schedules a single hide callback for `now + 5000`, and
firing the callbacks due at `now + 5000` removes the `show` class — with
no further submission the message is hidden again after 5000 ms. -/
theorem handleFormSubmit_valid_contract (now : Nat) (st : ContactForm) (s : SuccessElem)
    (hwf : st.wf) (hs : st.success = some s) (ht : st.pendingHideTimers = [])
    (hv : (fieldValid "name" st.nameField.value && fieldValid "email" st.emailField.value &&
           fieldValid "message" st.messageField.value) = true) :
    (handleFormSubmit now st).1 = true ∧
    (handleFormSubmit now st).2.success
      = some ⟨"Pesan berhasil dikirim! Terima kasih.", true⟩ ∧
    (handleFormSubmit now st).2.nameField.value = "" ∧
    (handleFormSubmit now st).2.emailField.value = "" ∧
    (handleFormSubmit now st).2.messageField.value = "" ∧
    (handleFormSubmit now st).2.pendingHideTimers = [now + 5000] ∧
    (fireTimers (now + 5000) (handleFormSubmit now st).2).success
      = some ⟨"Pesan berhasil dikirim! Terima kasih.", false⟩ := by
  obtain ⟨f1, f2, f3, e1, e2, e3, su, tm⟩ := st
  have hn : f1.name = "name" := hwf.1
  have he : f2.name = "email" := hwf.2.1
  have hm2 : f3.name = "message" := hwf.2.2
  have hsu : su = some s := hs
  have htm : tm = [] := ht
  subst hsu htm
  obtain ⟨⟨h1, h2⟩, h3⟩ :
      (fieldValid "name" f1.value = true ∧ fieldValid "email" f2.value = true) ∧
        fieldValid "message" f3.value = true := by
    simpa [Bool.and_eq_true] using hv
  rw [handleFormSubmit_valid_eq now f1 f2 f3 e1 e2 e3 s []
    (by rw [hn]; exact h1) (by rw [he]; exact h2) (by rw [hm2]; exact h3)]
  refine ⟨rfl, rfl, rfl, rfl, rfl, rfl, ?_⟩
  simp [fireTimers]

/-- Witness for C5 at a concrete input: all fields valid, submission at
instant 0, hide fires at instant 5000. -/
theorem handleFormSubmit_valid_contract_witness :
    (handleFormSubmit 0
      ⟨⟨"name", "Jane", false⟩, ⟨"email", "a@b.com", false⟩, ⟨"message", "hello", false⟩,
       some ⟨""⟩, some ⟨""⟩, some ⟨""⟩, some ⟨"", false⟩, []⟩).1 = true ∧
    (handleFormSubmit 0
      ⟨⟨"name", "Jane", false⟩, ⟨"email", "a@b.com", false⟩, ⟨"message", "hello", false⟩,
       some ⟨""⟩, some ⟨""⟩, some ⟨""⟩, some ⟨"", false⟩, []⟩).2.success
      = some ⟨"Pesan berhasil dikirim! Terima kasih.", true⟩ ∧
    (handleFormSubmit 0
      ⟨⟨"name", "Jane", false⟩, ⟨"email", "a@b.com", false⟩, ⟨"message", "hello", false⟩,
       some ⟨""⟩, some ⟨""⟩, some ⟨""⟩, some ⟨"", false⟩, []⟩).2.nameField.value = "" ∧
    (handleFormSubmit 0
      ⟨⟨"name", "Jane", false⟩, ⟨"email", "a@b.com", false⟩, ⟨"message", "hello", false⟩,
       some ⟨""⟩, some ⟨""⟩, some ⟨""⟩, some ⟨"", false⟩, []⟩).2.emailField.value = "" ∧
    (handleFormSubmit 0
      ⟨⟨"name", "Jane", false⟩, ⟨"email", "a@b.com", false⟩, ⟨"message", "hello", false⟩,
       some ⟨""⟩, some ⟨""⟩, some ⟨""⟩, some ⟨"", false⟩, []⟩).2.messageField.value = "" ∧
    (handleFormSubmit 0
      ⟨⟨"name", "Jane", false⟩, ⟨"email", "a@b.com", false⟩, ⟨"message", "hello", false⟩,
       some ⟨""⟩, some ⟨""⟩, some ⟨""⟩, some ⟨"", false⟩, []⟩).2.pendingHideTimers = [5000] ∧
    (fireTimers 5000 (handleFormSubmit 0
      ⟨⟨"name", "Jane", false⟩, ⟨"email", "a@b.com", false⟩, ⟨"message", "hello", false⟩,
       some ⟨""⟩, some ⟨""⟩, some ⟨""⟩, some ⟨"", false⟩, []⟩).2).success
      = some ⟨"Pesan berhasil dikirim! Terima kasih.", false⟩ :=
  handleFormSubmit_valid_contract 0
    ⟨⟨"name", "Jane", false⟩, ⟨"email", "a@b.com", false⟩, ⟨"message", "hello", false⟩,
     some ⟨""⟩, some ⟨""⟩, some ⟨""⟩, some ⟨"", false⟩, []⟩
    ⟨"", false⟩ ⟨rfl, rfl, rfl⟩ rfl rfl (by decide)

/-- C7 counterexample: a first fully-valid submission at instant 0 and a
second (after the user re-enters valid values) at instant 1000 leave two
stacked hide timers `[5000, 6000]` — not a replaced one — and the
callback due at instant 5000, scheduled by the first submission, hides
the success message only 4000 ms after the most recent submission.  This
contradicts the claim that the pending timer is reset/replaced and that
the message survives until 5000 ms after the most recent submission. -/
theorem successTimer_stacking_counterexample :
    ((handleFormSubmit 1000
        { (handleFormSubmit 0
            ⟨⟨"name", "Jane", false⟩, ⟨"email", "a@b.com", false⟩,
             ⟨"message", "hello", false⟩, some ⟨""⟩, some ⟨""⟩, some ⟨""⟩,
             some ⟨"", false⟩, []⟩).2 with
          nameField := ⟨"name", "Jane", false⟩,
          emailField := ⟨"email", "a@b.com", false⟩,
          messageField := ⟨"message", "hello", false⟩ }).2.pendingHideTimers
      = [5000, 6000]) ∧
    (fireTimers 5000
        (handleFormSubmit 1000
          { (handleFormSubmit 0
              ⟨⟨"name", "Jane", false⟩, ⟨"email", "a@b.com", false⟩,
               ⟨"message", "hello", false⟩, some ⟨""⟩, some ⟨""⟩, some ⟨""⟩,
               some ⟨"", false⟩, []⟩).2 with
            nameField := ⟨"name", "Jane", false⟩,
            emailField := ⟨"email", "a@b.com", false⟩,
            messageField := ⟨"message", "hello", false⟩ }).2).success
      = some ⟨"Pesan berhasil dikirim! Terima kasih.", false⟩ := by
  constructor <;> decide

/-- C7 (amended): a fully-valid submission appends a fresh hide timer to
the pending ones instead of resetting or replacing them, so any timer
already pending from an earlier submission still fires and hides the
success message — the message does not survive until 5000 ms after the
most recent submission. -/
theorem successTimer_stacks (now : Nat) (st : ContactForm) (s : SuccessElem)
    (hwf : st.wf) (hs : st.success = some s)
    (hv : (fieldValid "name" st.nameField.value && fieldValid "email" st.emailField.value &&
           fieldValid "message" st.messageField.value) = true) :
    (handleFormSubmit now st).2.pendingHideTimers
      = st.pendingHideTimers ++ [now + 5000] ∧
    ∀ d ∈ st.pendingHideTimers,
      (fireTimers d (handleFormSubmit now st).2).success
        = some ⟨"Pesan berhasil dikirim! Terima kasih.", false⟩ := by
  obtain ⟨f1, f2, f3, e1, e2, e3, su, tm⟩ := st
  have hn : f1.name = "name" := hwf.1
  have he : f2.name = "email" := hwf.2.1
  have hm2 : f3.name = "message" := hwf.2.2
  have hsu : su = some s := hs
  subst hsu
  obtain ⟨⟨h1, h2⟩, h3⟩ :
      (fieldValid "name" f1.value = true ∧ fieldValid "email" f2.value = true) ∧
        fieldValid "message" f3.value = true := by
    simpa [Bool.and_eq_true] using hv
  rw [handleFormSubmit_valid_eq now f1 f2 f3 e1 e2 e3 s tm
    (by rw [hn]; exact h1) (by rw [he]; exact h2) (by rw [hm2]; exact h3)]
  refine ⟨rfl, fun d hd => ?_⟩
  have hany : ((tm ++ [now + 5000]).any fun x => decide (x ≤ d)) = true := by
    simp only [List.any_eq_true]
    exact ⟨d, List.mem_append_left _ hd, by simp⟩
  simp [fireTimers, hany]

/-- Witness for C7: a second valid submission at instant 1000 with the
timer from an earlier submission still pending at 5000; that earlier
timer still fires and hides the message. -/
theorem successTimer_stacks_witness :
    (handleFormSubmit 1000
      ⟨⟨"name", "Jane", false⟩, ⟨"email", "a@b.com", false⟩, ⟨"message", "hello", false⟩,
       some ⟨""⟩, some ⟨""⟩, some ⟨""⟩,
       some ⟨"Pesan berhasil dikirim! Terima kasih.", true⟩, [5000]⟩).2.pendingHideTimers
      = [5000, 6000] ∧
    (fireTimers 5000 (handleFormSubmit 1000
      ⟨⟨"name", "Jane", false⟩, ⟨"email", "a@b.com", false⟩, ⟨"message", "hello", false⟩,
       some ⟨""⟩, some ⟨""⟩, some ⟨""⟩,
       some ⟨"Pesan berhasil dikirim! Terima kasih.", true⟩, [5000]⟩).2).success
      = some ⟨"Pesan berhasil dikirim! Terima kasih.", false⟩ := by
  have h := successTimer_stacks 1000
    ⟨⟨"name", "Jane", false⟩, ⟨"email", "a@b.com", false⟩, ⟨"message", "hello", false⟩,
     some ⟨""⟩, some ⟨""⟩, some ⟨""⟩,
     some ⟨"Pesan berhasil dikirim! Terima kasih.", true⟩, [5000]⟩
    ⟨"Pesan berhasil dikirim! Terima kasih.", true⟩ ⟨rfl, rfl, rfl⟩ rfl (by decide)
  exact ⟨h.1, h.2 5000 (by decide)⟩

end SimpleWebsite
